import Mathlib

/-!
Shallow embedding of the enrollment synchronizer (`src/web/courses.go`) and of
the GitLab SCM adapter (`src/unnamed/part_000`) of the quickfeed repository.
Go errors are modelled as values; fallible operations return `Except`.  The
external collaborators (the store `db` and the SCM adapter `sc`) are modelled
as records of response functions; each embedded operation additionally
returns the ordered list of calls it performed (SCM calls and store
reads/writes), so that call-order and call-absence properties can be stated.
-/

namespace QuickFeed

/-- Go errors are values; we model an error by its message string
(`fmt.Errorf` builds such a value). -/
abbrev GoError := String

/-- Embedding of fmt.Errorf without format verbs: builds an error value from a message. -/
def errorf (msg : String) : GoError := msg

/-- Modelled from the spec: the spec's error taxonomy (§7) names the failure
for an unrecognized target status `InvalidTransitionError`; in the code it is
the one `fmt.Errorf` value produced for an unrecognized status. -/
def InvalidTransitionError : GoError := errorf ("unknown enrollment")

/-- Enum values of pb.Enrollment_UserStatus (a Go int32 enum). -/
def Enrollment_NONE : Nat := 0

def Enrollment_PENDING : Nat := 1

def Enrollment_REJECTED : Nat := 2

def Enrollment_STUDENT : Nat := 3

def Enrollment_TEACHER : Nat := 4

/-- Enum values of pb.Repository_Type (a Go int32 enum); only distinctness of
the values matters for the embedded logic. -/
def Repository_USER : Nat := 1

def Repository_GROUP : Nat := 2

def Repository_COURSEINFO : Nat := 3

/-- The scm.Organization value: the SCM-side organization as seen by the
synchronizer. -/
structure Organization where
  ID : Nat
  Name : String
  deriving Repr, DecidableEq

/-- The pb.Course record (the fields used by the embedded code). -/
structure Course where
  ID : Nat := 0
  OrganizationID : Nat := 0
  Name : String := ""
  deriving Repr, DecidableEq

/-- The pb.User record (the fields used by the embedded code). -/
structure User where
  ID : Nat := 0
  Login : String := ""
  deriving Repr, DecidableEq

/-- The pb.Repository record persisted in the store. Defaults mirror Go's
zero-valued fields. -/
structure Repository where
  OrganizationID : Nat := 0
  UserID : Nat := 0
  RepoType : Nat := 0
  RepositoryID : Nat := 0
  HTMLURL : String := ""
  deriving Repr, DecidableEq

/-- The pb.Enrollment record; `course` and `user` are the preloaded
associations (nil-able pointers in Go, hence `Option`). -/
structure Enrollment where
  UserID : Nat := 0
  CourseID : Nat := 0
  Status : Nat := Enrollment_NONE
  GroupID : Nat := 0
  course : Option Course := none
  user : Option User := none
  deriving Repr, DecidableEq

/-- Go's nil-safe getter `enrollment.GetCourse()` followed by field getters:
a nil course yields zero-valued fields. -/
def Enrollment.GetCourse (e : Enrollment) : Course :=
  e.course.getD {}

/-- Go's nil-safe getter `enrollment.GetUser()`. -/
def Enrollment.GetUser (e : Enrollment) : User :=
  e.user.getD {}

/-- The scm.Repository value returned by the SCM adapter (fields `ID` and
`WebURL` are the ones the embedded code reads). -/
structure ScmRepository where
  ID : Nat := 0
  WebURL : String := ""
  deriving Repr, DecidableEq

/-- The scm.Team value. -/
structure Team where
  ID : Nat := 0
  Name : String := ""
  deriving Repr, DecidableEq

/-- The scm.TeamMembershipOptions value. -/
structure TeamMembershipOptions where
  Organization : Organization
  TeamSlug : String
  TeamID : Nat
  Username : String
  Role : String := ""
  deriving Repr, DecidableEq

/-- The scm.OrgMembership value. -/
structure OrgMembership where
  Organization : Organization
  Username : String
  Role : String
  deriving Repr, DecidableEq

/-- One observable call performed by the embedded code: an SCM adapter call
or a store (db) read/write, with its arguments. -/
inductive Event where
  | GetOrganization (orgID : Nat)
  | AddTeamMember (opt : TeamMembershipOptions)
  | RemoveTeamMember (opt : TeamMembershipOptions)
  | UpdateOrgMembership (opt : OrgMembership)
  | CreateRepoAndTeam (course : Course) (repoName : String) (login : String)
      (members : List String)
  | DbGetEnrollment (courseID : Nat) (userID : Nat)
  | DbGetRepositories (query : Repository)
  | DbRejectEnrollment (userID : Nat) (courseID : Nat)
  | DbSetPendingEnrollment (userID : Nat) (courseID : Nat)
  | DbEnrollStudent (userID : Nat) (courseID : Nat)
  | DbEnrollTeacher (userID : Nat) (courseID : Nat)
  | DbCreateRepository (repo : Repository)
  | DbCreateEnrollment (enrollment : Enrollment)
  deriving Repr, DecidableEq

/-- Whether an event is a call to the SCM adapter. -/
def Event.isScmCall : Event → Bool
  | .GetOrganization _ => true
  | .AddTeamMember _ => true
  | .RemoveTeamMember _ => true
  | .UpdateOrgMembership _ => true
  | .CreateRepoAndTeam _ _ _ _ => true
  | _ => false

/-- Whether an event is a store write (mutation). -/
def Event.isStoreWrite : Event → Bool
  | .DbRejectEnrollment _ _ => true
  | .DbSetPendingEnrollment _ _ => true
  | .DbEnrollStudent _ _ => true
  | .DbEnrollTeacher _ _ => true
  | .DbCreateRepository _ => true
  | .DbCreateEnrollment _ => true
  | _ => false

/-- The SCM adapter (`scm.SCM` interface) as a record of response functions:
each field gives the outcome the remote provider would return for that call. -/
structure SCM where
  getOrganization : Nat → Except GoError Organization
  addTeamMember : TeamMembershipOptions → Except GoError Unit
  removeTeamMember : TeamMembershipOptions → Except GoError Unit
  updateOrgMembership : OrgMembership → Except GoError Unit
  /-- Modelled from the spec: `createRepoAndTeam` (the Repository/Team
  Provisioner, spec §4.3) is code of this repository not present under
  `src/`; per the spec it creates a directory-scoped repository named from
  the login and a team containing only that user in one composite operation,
  and fails atomically from the caller's perspective. We model it as one
  composite adapter operation returning either both created entities or
  an error. -/
  createRepoAndTeam : Course → String → String → List String →
      Except GoError (ScmRepository × Team)

/-- Modelled from the spec: `pb.StudentRepoName` is not under `src/`; the
spec (§4.3) specifies a deterministic, stable transform of the login. -/
def StudentRepoName (login : String) : String :=
  login ++ "-labs"

/-- The store (`database.Database`) as a record of response functions. -/
structure Database where
  getEnrollmentByCourseAndUser : Nat → Nat → Except GoError Enrollment
  getRepositories : Repository → Except GoError (List Repository)
  rejectEnrollment : Nat → Nat → Except GoError Unit
  setPendingEnrollment : Nat → Nat → Except GoError Unit
  enrollStudent : Nat → Nat → Except GoError Unit
  enrollTeacher : Nat → Nat → Except GoError Unit
  createRepository : Repository → Except GoError Unit
  createEnrollment : Enrollment → Except GoError Unit
  getCourse : Nat → Except GoError Course
  getEnrollmentsByCourse : Nat → List Nat → Except GoError (List Enrollment)

/-- Embedding of `updateReposAndTeams` (src/web/courses.go:107-157).
Returns the ordered list of SCM calls performed together with the Go
result `(*scm.Repository, error)`; the repository pointer is `Option`. -/
def updateReposAndTeams (sc : SCM) (course : Course) (login : String)
    (state : Nat) : List Event × Except GoError (Option ScmRepository) :=
  match sc.getOrganization course.OrganizationID with
  | .error e => ([.GetOrganization course.OrganizationID], .error e)
  | .ok org =>
    let teamOpt : TeamMembershipOptions :=
      { Organization := org, TeamSlug := "students", TeamID := 0,
        Username := login }
    if state = Enrollment_STUDENT then
      match sc.addTeamMember teamOpt with
      | .error e =>
        ([.GetOrganization course.OrganizationID, .AddTeamMember teamOpt],
         .error e)
      | .ok _ =>
        match sc.createRepoAndTeam course (StudentRepoName login) login
            [login] with
        | .error e =>
          ([.GetOrganization course.OrganizationID, .AddTeamMember teamOpt,
            .CreateRepoAndTeam course (StudentRepoName login) login [login]],
           .error e)
        | .ok (repo, _team) =>
          ([.GetOrganization course.OrganizationID, .AddTeamMember teamOpt,
            .CreateRepoAndTeam course (StudentRepoName login) login [login]],
           .ok (some repo))
    else if state = Enrollment_TEACHER then
      let orgUpdate : OrgMembership :=
        { Organization := org, Username := login, Role := "admin" }
      match sc.updateOrgMembership orgUpdate with
      | .error e =>
        ([.GetOrganization course.OrganizationID,
          .UpdateOrgMembership orgUpdate], .error e)
      | .ok _ =>
        match sc.removeTeamMember teamOpt with
        | .error e =>
          ([.GetOrganization course.OrganizationID,
            .UpdateOrgMembership orgUpdate, .RemoveTeamMember teamOpt],
           .error e)
        | .ok _ =>
          let teamOpt2 : TeamMembershipOptions :=
            { teamOpt with TeamSlug := "teachers", Role := "maintainer" }
          match sc.addTeamMember teamOpt2 with
          | .error e =>
            ([.GetOrganization course.OrganizationID,
              .UpdateOrgMembership orgUpdate, .RemoveTeamMember teamOpt,
              .AddTeamMember teamOpt2], .error e)
          | .ok _ =>
            ([.GetOrganization course.OrganizationID,
              .UpdateOrgMembership orgUpdate, .RemoveTeamMember teamOpt,
              .AddTeamMember teamOpt2], .ok none)
    else
      ([.GetOrganization course.OrganizationID],
       .error (errorf ("unknown enrollment")))

/-- Embedding of `updateEnrollment` (src/web/courses.go:41-105).  Returns the
ordered list of calls performed and the Go `error` result. -/
def updateEnrollment (db : Database) (sc : SCM) (request : Enrollment) :
    List Event × Except GoError Unit :=
  match db.getEnrollmentByCourseAndUser request.CourseID request.UserID with
  | .error e => ([.DbGetEnrollment request.CourseID request.UserID], .error e)
  | .ok enrollment =>
    let pre : List Event := [.DbGetEnrollment request.CourseID request.UserID]
    if request.Status = Enrollment_REJECTED then
      (pre ++ [.DbRejectEnrollment request.UserID request.CourseID],
       db.rejectEnrollment request.UserID request.CourseID)
    else if request.Status = Enrollment_PENDING then
      (pre ++ [.DbSetPendingEnrollment request.UserID request.CourseID],
       db.setPendingEnrollment request.UserID request.CourseID)
    else if request.Status = Enrollment_STUDENT then
      let course := enrollment.GetCourse
      let student := enrollment.GetUser
      let userRepoQuery : Repository :=
        { OrganizationID := course.OrganizationID,
          UserID := request.UserID,
          RepoType := Repository_USER }
      match db.getRepositories userRepoQuery with
      | .error e => (pre ++ [.DbGetRepositories userRepoQuery], .error e)
      | .ok repos =>
        if repos.length > 0 then
          (pre ++ [.DbGetRepositories userRepoQuery,
            .DbEnrollStudent request.UserID request.CourseID],
           db.enrollStudent request.UserID request.CourseID)
        else
          let scmResult := updateReposAndTeams sc course student.Login
            request.Status
          match scmResult.2 with
          | .error e =>
            (pre ++ [.DbGetRepositories userRepoQuery] ++ scmResult.1,
             .error e)
          | .ok repoOpt =>
            let repo := repoOpt.getD {}
            let dbRepo : Repository :=
              { OrganizationID := course.OrganizationID,
                UserID := request.UserID,
                RepoType := Repository_USER,
                RepositoryID := repo.ID,
                HTMLURL := repo.WebURL }
            match db.createRepository dbRepo with
            | .error e =>
              (pre ++ [.DbGetRepositories userRepoQuery] ++ scmResult.1 ++
                [.DbCreateRepository dbRepo], .error e)
            | .ok _ =>
              (pre ++ [.DbGetRepositories userRepoQuery] ++ scmResult.1 ++
                [.DbCreateRepository dbRepo,
                 .DbEnrollStudent request.UserID request.CourseID],
               db.enrollStudent request.UserID request.CourseID)
    else if request.Status = Enrollment_TEACHER then
      let course := enrollment.GetCourse
      let teacher := enrollment.GetUser
      let scmResult := updateReposAndTeams sc course teacher.Login
        request.Status
      match scmResult.2 with
      | .error e => (pre ++ scmResult.1, .error e)
      | .ok _ =>
        (pre ++ scmResult.1 ++ [.DbEnrollTeacher teacher.ID course.ID],
         db.enrollTeacher teacher.ID course.ID)
    else
      (pre, .error (errorf ("unknown enrollment")))

/-- Embedding of `createEnrollment` (src/web/courses.go:31-38). -/
def createEnrollment (db : Database) (request : Enrollment) :
    List Event × Except GoError Unit :=
  let enrollment : Enrollment :=
    { UserID := request.UserID,
      CourseID := request.CourseID,
      Status := Enrollment_PENDING }
  ([.DbCreateEnrollment enrollment], db.createEnrollment enrollment)

/-- The pb.EnrollmentsRequest record (the fields used by the embedded code). -/
structure EnrollmentsRequest where
  CourseID : Nat := 0
  States : List Nat := []
  FilterOutGroupMembers : Bool := false
  deriving Repr, DecidableEq

/-- Embedding of `getEnrollmentsByCourse` (src/web/courses.go:211-228): the
group-member filter is the Go `for`/`append` loop, written as a left fold. -/
def getEnrollmentsByCourse (db : Database) (request : EnrollmentsRequest) :
    Except GoError (List Enrollment) :=
  match db.getEnrollmentsByCourse request.CourseID request.States with
  | .error e => .error e
  | .ok enrollments =>
    if request.FilterOutGroupMembers then
      .ok (enrollments.foldl
        (fun acc e => if e.GroupID = 0 then acc ++ [e] else acc) [])
    else
      .ok enrollments

/-- The pb.RepositoryRequest record (the fields used by the embedded code);
the Go field `Type` is named `RepoType` here because `Type` is a Lean
keyword. -/
structure RepositoryRequest where
  CourseID : Nat := 0
  RepoType : Nat := 0
  deriving Repr, DecidableEq

/-- The pb.URLResponse record. -/
structure URLResponse where
  URL : String
  deriving Repr, DecidableEq

/-- The repository query built by `getRepositoryURL`
(src/web/courses.go:236-242): `UserID` is set exactly when the requested
type is `USER`. -/
def repositoryQuery (course : Course) (currentUser : User)
    (request : RepositoryRequest) : Repository :=
  let q : Repository :=
    { OrganizationID := course.OrganizationID, RepoType := request.RepoType }
  if request.RepoType = Repository_USER then
    { q with UserID := currentUser.ID }
  else
    q

/-- Embedding of `getRepositoryURL` (src/web/courses.go:231-252). -/
def getRepositoryURL (db : Database) (currentUser : User)
    (request : RepositoryRequest) : Except GoError URLResponse :=
  match db.getCourse request.CourseID with
  | .error e => .error e
  | .ok course =>
    let userRepoQuery := repositoryQuery course currentUser request
    match db.getRepositories userRepoQuery with
    | .error e => .error e
    | .ok repos =>
      match repos with
      | [repo] => .ok { URL := repo.HTMLURL }
      | other =>
        .error (errorf ("found " ++ toString other.length ++
          " repositories for query"))

/-- The scm.Directory value. -/
structure Directory where
  ID : Nat
  Name : String
  deriving Repr, DecidableEq

/-- The scm.CreateDirectoryOptions value (the field used by the embedded
code). -/
structure CreateDirectoryOptions where
  Name : String
  deriving Repr, DecidableEq

/-- The gitlab.VisibilityLevelValue enum (the two values the embedded code
can produce). -/
inductive VisibilityLevelValue where
  | privateVisibility
  | publicVisibility
  deriving Repr, DecidableEq

/-- Embedding of `getVisibilityLevel` (src/unnamed/part_000:68-73). -/
def getVisibilityLevel (priv : Bool) : VisibilityLevelValue :=
  if priv then .privateVisibility else .publicVisibility

/-- An error value crossing the SCM adapter boundary: either a raw error of
the provider client's own type (go-gitlab errors), or one of the shared
error-taxonomy types.  The taxonomy constructors are modelled from the
spec (§7): the taxonomy itself is not under `src/`. -/
inductive ScmErrorValue where
  | providerRaw (msg : String)
  | NotFoundError (msg : String)
  | ConflictError (msg : String)
  | TransientError (msg : String)
  deriving Repr, DecidableEq

/-- Whether an error value belongs to the shared taxonomy (spec §7), as
opposed to being a raw provider-client error. -/
def ScmErrorValue.isTaxonomy : ScmErrorValue → Bool
  | .providerRaw _ => false
  | .NotFoundError _ => true
  | .ConflictError _ => true
  | .TransientError _ => true

/-- The gitlab.Group value (the fields used by the embedded code). -/
structure GitlabGroup where
  ID : Nat
  Name : String
  deriving Repr, DecidableEq

/-- The go-gitlab provider client (`gitlab.Client`) as a record of response
functions.  Its errors are values of the provider library's own error types
(`providerRaw`): the client library knows nothing of this repository's
shared error taxonomy. -/
structure GitlabClient where
  listGroups : Except ScmErrorValue (List GitlabGroup)
  createGroup : String → String → VisibilityLevelValue →
      Except ScmErrorValue GitlabGroup
  getGroup : Nat → Except ScmErrorValue GitlabGroup

/-- The GitlabSCM adapter (src/unnamed/part_000:10-12): holds the provider
client. -/
structure GitlabSCM where
  client : GitlabClient

/-- Embedding of `GitlabSCM.ListDirectories` (src/unnamed/part_000:22-36);
the Go `for`/`append` loop over groups is written as a left fold. -/
def GitlabSCM.ListDirectories (s : GitlabSCM) :
    Except ScmErrorValue (List Directory) :=
  match s.client.listGroups with
  | .error e => .error e
  | .ok groups =>
    .ok (groups.foldl
      (fun acc g => acc ++ [{ ID := g.ID, Name := g.Name }]) [])

/-- Embedding of `GitlabSCM.CreateDirectory` (src/unnamed/part_000:39-53):
creates a group with the option's name as both name and path, public
visibility. -/
def GitlabSCM.CreateDirectory (s : GitlabSCM) (opt : CreateDirectoryOptions) :
    Except ScmErrorValue Directory :=
  match s.client.createGroup opt.Name opt.Name (getVisibilityLevel false) with
  | .error e => .error e
  | .ok group => .ok { ID := group.ID, Name := group.Name }

/-- Embedding of `GitlabSCM.GetDirectory` (src/unnamed/part_000:56-66). -/
def GitlabSCM.GetDirectory (s : GitlabSCM) (id : Nat) :
    Except ScmErrorValue Directory :=
  match s.client.getGroup id with
  | .error e => .error e
  | .ok group => .ok { ID := group.ID, Name := group.Name }

/-! ## Concrete test doubles

These are fixtures used by witness and counterexample theorems: a course
with organization 100, a user 42 enrolled in course 7 (mirroring the
spec's §8 scenarios), and store/adapter doubles that succeed or fail at a
chosen operation. -/

def orgW : Organization := { ID := 100, Name := "course-org" }

def courseW : Course := { ID := 7, OrganizationID := 100, Name := "dat320" }

def userW : User := { ID := 42, Login := "alice" }

def enrollmentW : Enrollment :=
  { UserID := 42, CourseID := 7, Status := Enrollment_PENDING,
    course := some courseW, user := some userW }

def repoW : Repository :=
  { OrganizationID := 100, UserID := 42, RepoType := Repository_USER,
    RepositoryID := 9, HTMLURL := "https://git.example/alice-labs" }

def dbOk : Database :=
  { getEnrollmentByCourseAndUser := fun _ _ => .ok enrollmentW,
    getRepositories := fun _ => .ok [],
    rejectEnrollment := fun _ _ => .ok (),
    setPendingEnrollment := fun _ _ => .ok (),
    enrollStudent := fun _ _ => .ok (),
    enrollTeacher := fun _ _ => .ok (),
    createRepository := fun _ => .ok (),
    createEnrollment := fun _ => .ok (),
    getCourse := fun _ => .ok courseW,
    getEnrollmentsByCourse := fun _ _ => .ok [] }

def dbRepoExists : Database :=
  { dbOk with getRepositories := fun _ => .ok [repoW] }

def scOk : SCM :=
  { getOrganization := fun _ => .ok orgW,
    addTeamMember := fun _ => .ok (),
    removeTeamMember := fun _ => .ok (),
    updateOrgMembership := fun _ => .ok (),
    createRepoAndTeam := fun _ _ _ _ =>
      .ok ({ ID := 9, WebURL := "https://git.example/alice-labs" },
           { ID := 5, Name := "alice" }) }

def scFailOrg : SCM :=
  { scOk with getOrganization := fun _ => .error (errorf ("org: boom")) }

def scFailRemove : SCM :=
  { scOk with removeTeamMember := fun _ => .error (errorf ("remove: boom")) }

def reqStudent : Enrollment :=
  { UserID := 42, CourseID := 7, Status := Enrollment_STUDENT }

def reqTeacher : Enrollment :=
  { UserID := 42, CourseID := 7, Status := Enrollment_TEACHER }

def reqNone : Enrollment :=
  { UserID := 42, CourseID := 7, Status := Enrollment_NONE }

def enrollNoGroup : Enrollment :=
  { UserID := 2, CourseID := 7, Status := Enrollment_STUDENT, GroupID := 0 }

def enrollInGroup : Enrollment :=
  { UserID := 1, CourseID := 7, Status := Enrollment_STUDENT, GroupID := 5 }

def dbEnrollList : Database :=
  { dbOk with getEnrollmentsByCourse :=
      fun _ _ => .ok [enrollNoGroup, enrollInGroup] }

def reqFilterGroups : EnrollmentsRequest :=
  { CourseID := 7, FilterOutGroupMembers := true }

def reqRepoUrl : RepositoryRequest :=
  { CourseID := 7, RepoType := Repository_USER }

def gitlabClientRaw : GitlabClient :=
  { listGroups := .error (.providerRaw ("401 unauthorized")),
    createGroup := fun _ _ _ => .error (.providerRaw ("409 conflict")),
    getGroup := fun _ => .error (.providerRaw ("404 Group Not Found")) }

def gitlabRaw : GitlabSCM := { client := gitlabClientRaw }

/-! ## Theorems -/

/-- Every call recorded by `updateReposAndTeams` is an SCM adapter call:
in particular the helper performs no store write. -/
theorem updateReposAndTeams_no_store_write (sc : SCM) (course : Course)
    (login : String) (state : Nat) :
    ((updateReposAndTeams sc course login state).1.filter
      Event.isStoreWrite) = [] := by
  unfold updateReposAndTeams
  dsimp only
  repeat' split <;> try rfl

/-- C1: for a transition whose target status requires SCM calls (STUDENT
with no existing USER repository, and TEACHER), if the SCM phase
(`updateReposAndTeams`, covering GetOrganization, AddTeamMember,
RemoveTeamMember, UpdateOrgMembership and repository/team creation)
returns an error, then `updateEnrollment` returns that same error and
performs no store write (no EnrollStudent, EnrollTeacher, or
CreateRepository). -/
theorem updateEnrollment_no_store_write_on_scm_failure
    (db : Database) (sc : SCM) (request enrollment : Enrollment) (e : GoError)
    (hget : db.getEnrollmentByCourseAndUser request.CourseID request.UserID =
      .ok enrollment)
    (hscm : (updateReposAndTeams sc enrollment.GetCourse
        enrollment.GetUser.Login request.Status).2 = .error e) :
    (request.Status = Enrollment_STUDENT →
      db.getRepositories
        { OrganizationID := enrollment.GetCourse.OrganizationID,
          UserID := request.UserID, RepoType := Repository_USER } = .ok [] →
      (updateEnrollment db sc request).2 = .error e ∧
        ((updateEnrollment db sc request).1.filter Event.isStoreWrite) = []) ∧
    (request.Status = Enrollment_TEACHER →
      (updateEnrollment db sc request).2 = .error e ∧
        ((updateEnrollment db sc request).1.filter Event.isStoreWrite) = []) := by
  constructor
  · intro hst hrepos
    simp only [Enrollment_STUDENT] at hst
    simp only [hst] at hscm
    constructor
    · simp [updateEnrollment, hget, hst, hrepos, hscm, Enrollment_REJECTED,
        Enrollment_PENDING, Enrollment_STUDENT, Enrollment_TEACHER]
    · simp [updateEnrollment, hget, hst, hrepos, hscm, Enrollment_REJECTED,
        Enrollment_PENDING, Enrollment_STUDENT, Enrollment_TEACHER,
        List.filter_append, updateReposAndTeams_no_store_write,
        Event.isStoreWrite]
  · intro hst
    simp only [Enrollment_TEACHER] at hst
    simp only [hst] at hscm
    constructor
    · simp [updateEnrollment, hget, hst, hscm, Enrollment_REJECTED,
        Enrollment_PENDING, Enrollment_STUDENT, Enrollment_TEACHER]
    · simp [updateEnrollment, hget, hst, hscm, Enrollment_REJECTED,
        Enrollment_PENDING, Enrollment_STUDENT, Enrollment_TEACHER,
        List.filter_append, updateReposAndTeams_no_store_write,
        Event.isStoreWrite]

/-- Witness for C1: with a store double holding enrollment (42,7) and an
adapter whose organization lookup fails, the TEACHER transition returns the
adapter's error and performs no store write. -/
theorem updateEnrollment_no_store_write_on_scm_failure_witness :
    (updateEnrollment dbOk scFailOrg reqTeacher).2 =
      .error (errorf ("org: boom")) ∧
    ((updateEnrollment dbOk scFailOrg reqTeacher).1.filter
      Event.isStoreWrite) = [] := by
  have h := updateEnrollment_no_store_write_on_scm_failure dbOk scFailOrg
    reqTeacher enrollmentW (errorf ("org: boom")) rfl rfl
  exact h.2 rfl

/-- C2: for every TEACHER transition that reaches the SCM phase (the course
organization resolves), the SCM operations run in exactly the order
UpdateOrgMembership (promoting to role "admin"), then RemoveTeamMember on
the "students" team, then AddTeamMember on the "teachers" team with role
"maintainer"; each later operation runs only if every earlier one
succeeded, and the EnrollTeacher store write happens only after all three
succeed. -/
theorem updateEnrollment_teacher_promotion_order
    (db : Database) (sc : SCM) (request enrollment : Enrollment)
    (org : Organization)
    (hget : db.getEnrollmentByCourseAndUser request.CourseID request.UserID =
      .ok enrollment)
    (hst : request.Status = Enrollment_TEACHER)
    (horg : sc.getOrganization enrollment.GetCourse.OrganizationID = .ok org) :
    let login := enrollment.GetUser.Login
    let teamOpt : TeamMembershipOptions :=
      { Organization := org, TeamSlug := "students", TeamID := 0,
        Username := login }
    let orgUpdate : OrgMembership :=
      { Organization := org, Username := login, Role := "admin" }
    let teamOpt2 : TeamMembershipOptions :=
      { teamOpt with TeamSlug := "teachers", Role := "maintainer" }
    let pre : List Event :=
      [.DbGetEnrollment request.CourseID request.UserID,
       .GetOrganization enrollment.GetCourse.OrganizationID]
    (∀ e, sc.updateOrgMembership orgUpdate = .error e →
      updateEnrollment db sc request =
        (pre ++ [.UpdateOrgMembership orgUpdate], .error e)) ∧
    (∀ e, sc.updateOrgMembership orgUpdate = .ok () →
      sc.removeTeamMember teamOpt = .error e →
      updateEnrollment db sc request =
        (pre ++ [.UpdateOrgMembership orgUpdate, .RemoveTeamMember teamOpt],
         .error e)) ∧
    (∀ e, sc.updateOrgMembership orgUpdate = .ok () →
      sc.removeTeamMember teamOpt = .ok () →
      sc.addTeamMember teamOpt2 = .error e →
      updateEnrollment db sc request =
        (pre ++ [.UpdateOrgMembership orgUpdate, .RemoveTeamMember teamOpt,
          .AddTeamMember teamOpt2], .error e)) ∧
    (sc.updateOrgMembership orgUpdate = .ok () →
      sc.removeTeamMember teamOpt = .ok () →
      sc.addTeamMember teamOpt2 = .ok () →
      updateEnrollment db sc request =
        (pre ++ [.UpdateOrgMembership orgUpdate, .RemoveTeamMember teamOpt,
          .AddTeamMember teamOpt2,
          .DbEnrollTeacher enrollment.GetUser.ID enrollment.GetCourse.ID],
         db.enrollTeacher enrollment.GetUser.ID enrollment.GetCourse.ID)) := by
  simp only [Enrollment_TEACHER] at hst
  dsimp only
  refine ⟨?_, ?_, ?_, ?_⟩
  · intro e hUom
    simp [updateEnrollment, updateReposAndTeams, hget, hst, horg, hUom,
      Enrollment_REJECTED, Enrollment_PENDING, Enrollment_STUDENT,
      Enrollment_TEACHER]
  · intro e hUom hRem
    simp [updateEnrollment, updateReposAndTeams, hget, hst, horg, hUom, hRem,
      Enrollment_REJECTED, Enrollment_PENDING, Enrollment_STUDENT,
      Enrollment_TEACHER]
  · intro e hUom hRem hAdd
    simp [updateEnrollment, updateReposAndTeams, hget, hst, horg, hUom, hRem,
      hAdd, Enrollment_REJECTED, Enrollment_PENDING, Enrollment_STUDENT,
      Enrollment_TEACHER]
  · intro hUom hRem hAdd
    simp [updateEnrollment, updateReposAndTeams, hget, hst, horg, hUom, hRem,
      hAdd, Enrollment_REJECTED, Enrollment_PENDING, Enrollment_STUDENT,
      Enrollment_TEACHER]

/-- Witness for C2: with all-success doubles, the TEACHER transition of
(42,7) produces exactly the sequence GetOrganization, UpdateOrgMembership
(admin), RemoveTeamMember (students), AddTeamMember (teachers, maintainer),
then the EnrollTeacher store write. -/
theorem updateEnrollment_teacher_promotion_order_witness :
    updateEnrollment dbOk scOk reqTeacher =
      ([.DbGetEnrollment 7 42, .GetOrganization 100,
        .UpdateOrgMembership
          { Organization := orgW, Username := "alice", Role := "admin" },
        .RemoveTeamMember
          { Organization := orgW, TeamSlug := "students", TeamID := 0,
            Username := "alice" },
        .AddTeamMember
          { Organization := orgW, TeamSlug := "teachers", TeamID := 0,
            Username := "alice", Role := "maintainer" },
        .DbEnrollTeacher 42 7], .ok ()) := by
  have h := updateEnrollment_teacher_promotion_order dbOk scOk reqTeacher
    enrollmentW orgW rfl rfl rfl
  exact h.2.2.2 rfl rfl rfl

/-- C3: a STUDENT transition that finds an existing USER repository for
(course organization, user) performs zero SCM calls and creates nothing: it
only reads the store and calls EnrollStudent, reusing the existing
repository record. -/
theorem updateEnrollment_student_existing_repo
    (db : Database) (sc : SCM) (request enrollment : Enrollment)
    (repos : List Repository)
    (hget : db.getEnrollmentByCourseAndUser request.CourseID request.UserID =
      .ok enrollment)
    (hst : request.Status = Enrollment_STUDENT)
    (hrepos : db.getRepositories
      { OrganizationID := enrollment.GetCourse.OrganizationID,
        UserID := request.UserID, RepoType := Repository_USER } = .ok repos)
    (hne : 0 < repos.length) :
    updateEnrollment db sc request =
      ([.DbGetEnrollment request.CourseID request.UserID,
        .DbGetRepositories
          { OrganizationID := enrollment.GetCourse.OrganizationID,
            UserID := request.UserID, RepoType := Repository_USER },
        .DbEnrollStudent request.UserID request.CourseID],
       db.enrollStudent request.UserID request.CourseID) ∧
    ((updateEnrollment db sc request).1.filter Event.isScmCall) = [] := by
  simp only [Enrollment_STUDENT] at hst
  have hmain : updateEnrollment db sc request =
      ([.DbGetEnrollment request.CourseID request.UserID,
        .DbGetRepositories
          { OrganizationID := enrollment.GetCourse.OrganizationID,
            UserID := request.UserID, RepoType := Repository_USER },
        .DbEnrollStudent request.UserID request.CourseID],
       db.enrollStudent request.UserID request.CourseID) := by
    simp [updateEnrollment, hget, hst, hrepos, hne, Enrollment_REJECTED,
      Enrollment_PENDING, Enrollment_STUDENT, Enrollment_TEACHER]
  refine ⟨hmain, ?_⟩
  rw [hmain]
  rfl

/-- Witness for C3: with a store double already holding the USER repository
for (100,42), the STUDENT transition only reads and enrolls. -/
theorem updateEnrollment_student_existing_repo_witness :
    updateEnrollment dbRepoExists scOk reqStudent =
      ([.DbGetEnrollment 7 42,
        .DbGetRepositories
          { OrganizationID := 100, UserID := 42,
            RepoType := Repository_USER },
        .DbEnrollStudent 42 7], .ok ()) ∧
    ((updateEnrollment dbRepoExists scOk reqStudent).1.filter
      Event.isScmCall) = [] := by
  exact updateEnrollment_student_existing_repo dbRepoExists scOk reqStudent
    enrollmentW [repoW] rfl rfl rfl (by decide)

/-- C5: with the enrollment loaded successfully, a requested status outside
PENDING, REJECTED, STUDENT and TEACHER makes `updateEnrollment` return the
invalid-transition error (the code's `unknown enrollment` error value) after
zero SCM calls and zero store writes. -/
theorem updateEnrollment_unknown_status_rejected
    (db : Database) (sc : SCM) (request enrollment : Enrollment)
    (hget : db.getEnrollmentByCourseAndUser request.CourseID request.UserID =
      .ok enrollment)
    (h1 : request.Status ≠ Enrollment_PENDING)
    (h2 : request.Status ≠ Enrollment_REJECTED)
    (h3 : request.Status ≠ Enrollment_STUDENT)
    (h4 : request.Status ≠ Enrollment_TEACHER) :
    updateEnrollment db sc request =
      ([.DbGetEnrollment request.CourseID request.UserID],
       .error InvalidTransitionError) ∧
    ((updateEnrollment db sc request).1.filter Event.isScmCall) = [] ∧
    ((updateEnrollment db sc request).1.filter Event.isStoreWrite) = [] := by
  have hmain : updateEnrollment db sc request =
      ([.DbGetEnrollment request.CourseID request.UserID],
       .error InvalidTransitionError) := by
    simp [updateEnrollment, hget, h1, h2, h3, h4, InvalidTransitionError,
      errorf]
  refine ⟨hmain, ?_, ?_⟩ <;> rw [hmain] <;> rfl

/-- Witness for C5: a request carrying status NONE is rejected with the
invalid-transition error after only the enrollment read. -/
theorem updateEnrollment_unknown_status_rejected_witness :
    updateEnrollment dbOk scOk reqNone =
      ([.DbGetEnrollment 7 42], .error InvalidTransitionError) ∧
    ((updateEnrollment dbOk scOk reqNone).1.filter Event.isScmCall) = [] ∧
    ((updateEnrollment dbOk scOk reqNone).1.filter Event.isStoreWrite) = [] := by
  exact updateEnrollment_unknown_status_rejected dbOk scOk reqNone enrollmentW
    rfl (by decide) (by decide) (by decide) (by decide)

/-- C4: for a STUDENT transition with no existing USER repository, the steps
run in exactly this order, each only after the previous succeeded: resolve
the organization, add the user to the "students" team, create the per-user
repository and single-user team, persist the Repository record, and finally
persist STUDENT — every SCM side effect precedes every store write. -/
theorem updateEnrollment_student_provisioning_order
    (db : Database) (sc : SCM) (request enrollment : Enrollment)
    (org : Organization)
    (hget : db.getEnrollmentByCourseAndUser request.CourseID request.UserID =
      .ok enrollment)
    (hst : request.Status = Enrollment_STUDENT)
    (hrepos : db.getRepositories
      { OrganizationID := enrollment.GetCourse.OrganizationID,
        UserID := request.UserID, RepoType := Repository_USER } = .ok [])
    (horg : sc.getOrganization enrollment.GetCourse.OrganizationID = .ok org) :
    let login := enrollment.GetUser.Login
    let teamOpt : TeamMembershipOptions :=
      { Organization := org, TeamSlug := "students", TeamID := 0,
        Username := login }
    let pre : List Event :=
      [.DbGetEnrollment request.CourseID request.UserID,
       .DbGetRepositories
         { OrganizationID := enrollment.GetCourse.OrganizationID,
           UserID := request.UserID, RepoType := Repository_USER },
       .GetOrganization enrollment.GetCourse.OrganizationID]
    (∀ e, sc.addTeamMember teamOpt = .error e →
      updateEnrollment db sc request =
        (pre ++ [.AddTeamMember teamOpt], .error e)) ∧
    (∀ e, sc.addTeamMember teamOpt = .ok () →
      sc.createRepoAndTeam enrollment.GetCourse (StudentRepoName login)
        login [login] = .error e →
      updateEnrollment db sc request =
        (pre ++ [.AddTeamMember teamOpt,
          .CreateRepoAndTeam enrollment.GetCourse (StudentRepoName login)
            login [login]], .error e)) ∧
    (∀ repo team, sc.addTeamMember teamOpt = .ok () →
      sc.createRepoAndTeam enrollment.GetCourse (StudentRepoName login)
        login [login] = .ok (repo, team) →
      let dbRepo : Repository :=
        { OrganizationID := enrollment.GetCourse.OrganizationID,
          UserID := request.UserID, RepoType := Repository_USER,
          RepositoryID := repo.ID, HTMLURL := repo.WebURL }
      (∀ e, db.createRepository dbRepo = .error e →
        updateEnrollment db sc request =
          (pre ++ [.AddTeamMember teamOpt,
            .CreateRepoAndTeam enrollment.GetCourse (StudentRepoName login)
              login [login],
            .DbCreateRepository dbRepo], .error e)) ∧
      (db.createRepository dbRepo = .ok () →
        updateEnrollment db sc request =
          (pre ++ [.AddTeamMember teamOpt,
            .CreateRepoAndTeam enrollment.GetCourse (StudentRepoName login)
              login [login],
            .DbCreateRepository dbRepo,
            .DbEnrollStudent request.UserID request.CourseID],
           db.enrollStudent request.UserID request.CourseID))) := by
  simp only [Enrollment_STUDENT] at hst
  dsimp only
  refine ⟨?_, ?_, ?_⟩
  · intro e hAdd
    simp [updateEnrollment, updateReposAndTeams, hget, hst, hrepos, horg,
      hAdd, Enrollment_REJECTED, Enrollment_PENDING, Enrollment_STUDENT,
      Enrollment_TEACHER]
  · intro e hAdd hCrt
    simp [updateEnrollment, updateReposAndTeams, hget, hst, hrepos, horg,
      hAdd, hCrt, Enrollment_REJECTED, Enrollment_PENDING,
      Enrollment_STUDENT, Enrollment_TEACHER]
  · intro repo team hAdd hCrt
    refine ⟨?_, ?_⟩
    · intro e hCreate
      simp [updateEnrollment, updateReposAndTeams, hget, hst, hrepos, horg,
        hAdd, hCrt, hCreate, Enrollment_REJECTED, Enrollment_PENDING,
        Enrollment_STUDENT, Enrollment_TEACHER]
    · intro hCreate
      simp [updateEnrollment, updateReposAndTeams, hget, hst, hrepos, horg,
        hAdd, hCrt, hCreate, Enrollment_REJECTED, Enrollment_PENDING,
        Enrollment_STUDENT, Enrollment_TEACHER]

/-- Witness for C4: with all-success doubles and no pre-existing repository,
the STUDENT transition of (42,7) performs, in order, the two store reads,
GetOrganization, AddTeamMember on "students", repository/team creation, the
CreateRepository store write, and the EnrollStudent store write. -/
theorem updateEnrollment_student_provisioning_order_witness :
    updateEnrollment dbOk scOk reqStudent =
      ([.DbGetEnrollment 7 42,
        .DbGetRepositories
          { OrganizationID := 100, UserID := 42,
            RepoType := Repository_USER },
        .GetOrganization 100,
        .AddTeamMember
          { Organization := orgW, TeamSlug := "students", TeamID := 0,
            Username := "alice" },
        .CreateRepoAndTeam courseW (StudentRepoName ("alice")) ("alice")
          ["alice"],
        .DbCreateRepository
          { OrganizationID := 100, UserID := 42,
            RepoType := Repository_USER, RepositoryID := 9,
            HTMLURL := "https://git.example/alice-labs" },
        .DbEnrollStudent 42 7], .ok ()) := by
  have h := updateEnrollment_student_provisioning_order dbOk scOk reqStudent
    enrollmentW orgW rfl rfl rfl rfl
  exact (h.2.2 { ID := 9, WebURL := "https://git.example/alice-labs" }
    { ID := 5, Name := "alice" } rfl rfl).2 rfl

/-- Counterexample for C6: when RemoveTeamMember fails during a TEACHER
transition, `updateEnrollment` returns the adapter's error value verbatim —
the same value the adapter produced, with no context identifying the failing
sub-operation added to it (the context is only logged). -/
theorem updateEnrollment_error_not_enriched_cex :
    (updateEnrollment dbOk scFailRemove reqTeacher).2 =
      .error (errorf ("remove: boom")) ∧
    scFailRemove.removeTeamMember
      { Organization := orgW, TeamSlug := "students", TeamID := 0,
        Username := "alice" } = .error (errorf ("remove: boom")) :=
  ⟨rfl, rfl⟩

/-- C6 amended: when the SCM phase of a transition fails, `updateEnrollment`
returns the adapter's original error value unmodified (never swallowed or
reinterpreted; the failing step's context is only logged, not attached to
the error), and performs no further call of any kind after the failure: the
call trace is exactly the store reads followed by the SCM helper's own
calls, so there is no compensating SCM action and no store write. -/
theorem updateEnrollment_error_propagated_unmodified
    (db : Database) (sc : SCM) (request enrollment : Enrollment)
    (tr : List Event) (e : GoError)
    (hget : db.getEnrollmentByCourseAndUser request.CourseID request.UserID =
      .ok enrollment)
    (hscm : updateReposAndTeams sc enrollment.GetCourse
      enrollment.GetUser.Login request.Status = (tr, .error e)) :
    (request.Status = Enrollment_STUDENT →
      db.getRepositories
        { OrganizationID := enrollment.GetCourse.OrganizationID,
          UserID := request.UserID, RepoType := Repository_USER } = .ok [] →
      updateEnrollment db sc request =
        ([.DbGetEnrollment request.CourseID request.UserID,
          .DbGetRepositories
            { OrganizationID := enrollment.GetCourse.OrganizationID,
              UserID := request.UserID, RepoType := Repository_USER }] ++ tr,
         .error e)) ∧
    (request.Status = Enrollment_TEACHER →
      updateEnrollment db sc request =
        ([.DbGetEnrollment request.CourseID request.UserID] ++ tr,
         .error e)) := by
  constructor
  · intro hst hrepos
    simp only [Enrollment_STUDENT] at hst
    simp only [hst] at hscm
    simp [updateEnrollment, hget, hst, hrepos, hscm, Enrollment_REJECTED,
      Enrollment_PENDING, Enrollment_STUDENT, Enrollment_TEACHER]
  · intro hst
    simp only [Enrollment_TEACHER] at hst
    simp only [hst] at hscm
    simp [updateEnrollment, hget, hst, hscm, Enrollment_REJECTED,
      Enrollment_PENDING, Enrollment_STUDENT, Enrollment_TEACHER]

/-- Witness for C6 (amended): with the adapter failing at RemoveTeamMember,
the TEACHER transition's full trace is the enrollment read followed by the
helper's calls up to the failing one, and the returned error is the
adapter's value. -/
theorem updateEnrollment_error_propagated_unmodified_witness :
    updateEnrollment dbOk scFailRemove reqTeacher =
      ([.DbGetEnrollment 7 42, .GetOrganization 100,
        .UpdateOrgMembership
          { Organization := orgW, Username := "alice", Role := "admin" },
        .RemoveTeamMember
          { Organization := orgW, TeamSlug := "students", TeamID := 0,
            Username := "alice" }],
       .error (errorf ("remove: boom"))) := by
  have h := updateEnrollment_error_propagated_unmodified dbOk scFailRemove
    reqTeacher enrollmentW
    [.GetOrganization 100,
     .UpdateOrgMembership
       { Organization := orgW, Username := "alice", Role := "admin" },
     .RemoveTeamMember
       { Organization := orgW, TeamSlug := "students", TeamID := 0,
         Username := "alice" }]
    (errorf ("remove: boom")) rfl rfl
  exact h.2 rfl

/-- Counterexample for C7: a raw provider-client error escapes
`GitlabSCM.GetDirectory` untranslated — the error returned to the caller is
not one of the shared error-taxonomy types. -/
theorem gitlab_raw_error_escapes_cex :
    GitlabSCM.GetDirectory gitlabRaw 1 =
      .error (.providerRaw ("404 Group Not Found")) ∧
    (ScmErrorValue.providerRaw ("404 Group Not Found")).isTaxonomy = false :=
  ⟨rfl, rfl⟩

/-- C7 amended: each GitLab adapter operation (ListDirectories,
CreateDirectory, GetDirectory) propagates the provider client's error value
unmodified; no translation into the shared error taxonomy is performed. -/
theorem gitlab_errors_propagated_unmodified (s : GitlabSCM)
    (e : ScmErrorValue) :
    (s.client.listGroups = .error e →
      GitlabSCM.ListDirectories s = .error e) ∧
    (∀ opt : CreateDirectoryOptions,
      s.client.createGroup opt.Name opt.Name (getVisibilityLevel false) =
        .error e →
      GitlabSCM.CreateDirectory s opt = .error e) ∧
    (∀ id, s.client.getGroup id = .error e →
      GitlabSCM.GetDirectory s id = .error e) := by
  refine ⟨?_, ?_, ?_⟩
  · intro h
    simp [GitlabSCM.ListDirectories, h]
  · intro opt h
    simp [GitlabSCM.CreateDirectory, h]
  · intro id h
    simp [GitlabSCM.GetDirectory, h]

/-- Witness for C7 (amended): the raw-error client's listing failure is
returned unmodified by ListDirectories. -/
theorem gitlab_errors_propagated_unmodified_witness :
    GitlabSCM.ListDirectories gitlabRaw =
      .error (.providerRaw ("401 unauthorized")) := by
  have h := gitlab_errors_propagated_unmodified gitlabRaw
    (.providerRaw ("401 unauthorized"))
  exact h.1 rfl

/-- C8: `createEnrollment` persists an enrollment carrying exactly the
request's UserID and CourseID with status PENDING — regardless of any
status in the request — and every other field is the zero value (no other
enrollment field is taken from the request). -/
theorem createEnrollment_persists_pending (db : Database)
    (request : Enrollment) :
    createEnrollment db request =
      ([.DbCreateEnrollment
          { UserID := request.UserID, CourseID := request.CourseID,
            Status := Enrollment_PENDING, GroupID := 0,
            course := none, user := none }],
       db.createEnrollment
          { UserID := request.UserID, CourseID := request.CourseID,
            Status := Enrollment_PENDING, GroupID := 0,
            course := none, user := none }) := rfl

/-- The Go append loop filtering group members equals `List.filter`
(accumulator-generalized form). -/
theorem foldl_groupFilter_eq_filter (l acc : List Enrollment) :
    l.foldl (fun acc e => if e.GroupID = 0 then acc ++ [e] else acc) acc =
      acc ++ l.filter (fun e => e.GroupID == 0) := by
  induction l generalizing acc with
  | nil => simp
  | cons x xs ih =>
    by_cases h : x.GroupID = 0 <;>
      simp [List.filter_cons, h, ih, List.append_assoc]

/-- C9: with the store read succeeding, `getEnrollmentsByCourse` with
FilterOutGroupMembers set returns exactly the order-preserving sublist of
the store's enrollments whose GroupID is 0; with the flag unset it returns
the store's list unchanged. -/
theorem getEnrollmentsByCourse_group_filter (db : Database)
    (request : EnrollmentsRequest) (enrollments : List Enrollment)
    (hdb : db.getEnrollmentsByCourse request.CourseID request.States =
      .ok enrollments) :
    (request.FilterOutGroupMembers = true →
      getEnrollmentsByCourse db request =
        .ok (enrollments.filter (fun e => e.GroupID == 0))) ∧
    (request.FilterOutGroupMembers = false →
      getEnrollmentsByCourse db request = .ok enrollments) := by
  constructor <;> intro hf <;>
    simp [getEnrollmentsByCourse, hdb, hf, foldl_groupFilter_eq_filter]

/-- Witness for C9: a store double returning one group member and one
non-member yields only the non-member when the filter flag is set. -/
theorem getEnrollmentsByCourse_group_filter_witness :
    getEnrollmentsByCourse dbEnrollList reqFilterGroups =
      .ok [enrollNoGroup] := by
  have h := getEnrollmentsByCourse_group_filter dbEnrollList reqFilterGroups
    [enrollNoGroup, enrollInGroup] rfl
  exact (h.1 rfl).trans rfl

/-- C10: with the course and repository reads succeeding, the repository
query carries the course's organization and the requested type, setting
UserID to the current user's ID exactly when the type is USER; the call
returns a URL iff the query matched exactly one repository, in which case
it is that repository's HTMLURL; with zero or several matches it returns
the found-count error and no URL. -/
theorem getRepositoryURL_unique_match (db : Database) (currentUser : User)
    (request : RepositoryRequest) (course : Course)
    (repos : List Repository)
    (hc : db.getCourse request.CourseID = .ok course)
    (hr : db.getRepositories (repositoryQuery course currentUser request) =
      .ok repos) :
    repositoryQuery course currentUser request =
      { OrganizationID := course.OrganizationID,
        RepoType := request.RepoType,
        UserID :=
          if request.RepoType = Repository_USER then currentUser.ID
          else 0 } ∧
    (∀ url, getRepositoryURL db currentUser request = .ok url ↔
      ∃ r, repos = [r] ∧ url = { URL := r.HTMLURL }) ∧
    (repos.length ≠ 1 →
      getRepositoryURL db currentUser request =
        .error (errorf ("found " ++ toString repos.length ++
          " repositories for query"))) := by
  refine ⟨?_, ?_, ?_⟩
  · unfold repositoryQuery
    by_cases h : request.RepoType = Repository_USER <;> simp [h]
  · intro url
    rcases repos with _ | ⟨r, _ | ⟨r2, rest⟩⟩ <;>
      simp [getRepositoryURL, hc, hr, eq_comm]
  · intro hlen
    rcases repos with _ | ⟨r, _ | ⟨r2, rest⟩⟩
    · simp [getRepositoryURL, hc, hr]
    · exact absurd rfl hlen
    · simp [getRepositoryURL, hc, hr]

/-- Witness for C10: with exactly one USER repository for (100,42) in the
store, the current user's USER-type request returns that repository's
HTMLURL. -/
theorem getRepositoryURL_unique_match_witness :
    getRepositoryURL dbRepoExists userW reqRepoUrl =
      .ok { URL := "https://git.example/alice-labs" } := by
  have h := getRepositoryURL_unique_match dbRepoExists userW reqRepoUrl
    courseW [repoW] rfl rfl
  exact (h.2.1 { URL := "https://git.example/alice-labs" }).mpr
    ⟨repoW, rfl, rfl⟩

end QuickFeed
